import Mathlib

/-!
Shallow embedding of the monitoring engine in
src/backend/app/routers/monitor.py (class MonitorManager) and proofs of
the specification claims about it.

Python floats are modelled as rationals, Python dicts as insertion-ordered
association lists, and the two bounded collections.deque buffers as lists
with an eviction-on-append operation. Ambient effects (wall-clock
timestamps, the psutil counter read, the scapy probe, websocket sends) are
passed in as explicit parameters; a failing psutil read or websocket send
is an explicit failure value.
-/

namespace RobberyDS

/-! ## Configuration (env-var defaults from the top of monitor.py) -/

def SSE_TICK_SEC : ℚ := 1
def ANOMALY_STD_THRESHOLD : ℚ := 3
def HIGH_TRAFFIC_MBPS : ℚ := 50
def DEVICE_SCAN_EVERY : ℕ := 30
def ALERT_BUFFER : ℕ := 200
def LOG_BUFFER : ℕ := 500

/-! ## Generic helpers: Python dict / deque semantics -/

/-- A JSON-ish value for the heterogeneous details dict of an Alert. -/
inductive JVal where
  | num (q : ℚ)
  | str (s : String)
  deriving DecidableEq, Repr

/-- Python d.get(k, dflt) on an insertion-ordered association list. -/
def dictGetD [DecidableEq α] (d : List (α × β)) (k : α) (dflt : β) : β :=
  match d.find? (fun p => p.1 = k) with
  | some p => p.2
  | none => dflt

/-- Python d[k] = v on an insertion-ordered association list: an existing
key keeps its position and is overwritten, a new key is appended. -/
def dictInsert [DecidableEq α] (d : List (α × β)) (k : α) (v : β) : List (α × β) :=
  if d.any (fun p => p.1 = k) then
    d.map (fun p => if p.1 = k then (k, v) else p)
  else d ++ [(k, v)]

/-- collections.deque(maxlen where cap).append: when the deque is full the
oldest (leftmost) element is evicted. -/
def dappend (cap : ℕ) (xs : List α) (x : α) : List α :=
  if cap ≤ xs.length then xs.tail ++ [x] else xs ++ [x]

/-- Python list(buf)[-n:]: the up-to-n most recently inserted entries, in
insertion order. -/
def latest (n : ℕ) (xs : List α) : List α := xs.drop (xs.length - n)

/-- Python round(q, digits): round half to even at the given number of
decimal digits (exact-rational model of CPython float rounding). -/
def pyRound (digits : ℕ) (q : ℚ) : ℚ :=
  let m : ℚ := (10 : ℚ) ^ digits
  let x := q * m
  let f : ℤ := Int.floor x
  let r : ℚ := x - f
  let n : ℤ := if r < 1/2 then f else if 1/2 < r then f + 1
    else if f % 2 = 0 then f else f + 1
  (n : ℚ) / m

/-! ## Data model (the dataclasses of monitor.py) -/

structure Alert where
  timestamp : String
  type : String
  severity : String
  source_ip : Option String
  message : String
  details : List (String × JVal)
  deriving DecidableEq, Repr

structure SecurityLog where
  timestamp : String
  level : String
  source : String
  message : String
  ip_address : Option String
  deriving DecidableEq, Repr

structure MonitorSnapshot where
  ts : String
  inbound_mbps : ℚ
  outbound_mbps : ℚ
  status : String
  devices : List (List (String × String))
  alerts : List Alert
  logs : List SecurityLog
  deriving DecidableEq, Repr

/-- A websocket client: identified, and with the outcome its send_text
would have on this broadcast pass (fails = true means send_text raises). -/
structure Observer where
  id : ℕ
  fails : Bool
  deriving DecidableEq, Repr

/-- One psutil.net_io_counters() reading. -/
structure NetCounters where
  bytes_recv : ℕ
  bytes_sent : ℕ
  deriving DecidableEq, Repr

/-! ## MonitorManager state -/

structure MonitorState where
  running : Bool
  devices : List (String × List (String × String))
  alerts : List Alert
  logs : List SecurityLog
  latest_in_mbps : ℚ
  latest_out_mbps : ℚ
  status : String
  baseline_init : Bool
  in_avg : ℚ
  out_avg : ℚ
  in_std : ℚ
  out_std : ℚ
  syn_counts : List (String × ℕ)
  clients : List Observer
  stop_sniff : Bool
  tasks : List ℕ
  deriving DecidableEq, Repr

/-- MonitorManager.__init__. -/
def initState : MonitorState :=
  { running := false, devices := [], alerts := [], logs := []
    latest_in_mbps := 0, latest_out_mbps := 0, status := "OK"
    baseline_init := false, in_avg := 0, out_avg := 0, in_std := 1/10, out_std := 1/10
    syn_counts := [], clients := [], stop_sniff := false, tasks := [] }

/-- MonitorManager._log: append a SecurityLog entry (the print is an
ambient effect with no bearing on state). -/
def log_event (s : MonitorState) (ts level source message : String)
    (ip : Option String) : MonitorState :=
  { s with logs := dappend LOG_BUFFER s.logs ⟨ts, level, source, message, ip⟩ }

/-- MonitorManager._raise_alert: append the Alert and the derived
SecurityLog, both carrying the same timestamp ts. -/
def raise_alert (s : MonitorState) (ts atype severity : String)
    (source_ip : Option String) (message : String)
    (details : List (String × JVal)) : MonitorState :=
  let alert : Alert :=
    { timestamp := ts, type := atype, severity := severity
      source_ip := source_ip, message := message, details := details }
  { s with
    alerts := dappend ALERT_BUFFER s.alerts alert
    logs := dappend LOG_BUFFER s.logs
      { timestamp := ts
        level := if severity ≠ "low" then "WARN" else "INFO"
        source := "detector"
        message := atype ++ ": " ++ message
        ip_address := source_ip } }

/-- The EWMA mean update of _update_anomaly_and_status with alpha = 0.2:
avg2 = (1 - alpha) * avg + alpha * sample. -/
def ewma_next (avg sample : ℚ) : ℚ := (1 - 2/10) * avg + (2/10) * sample

/-- The EWMA absolute-deviation proxy update of _update_anomaly_and_status:
std2 = (1 - alpha) * std + alpha * abs (sample - avg2). -/
def dev_next (std avg2 sample : ℚ) : ℚ := (1 - 2/10) * std + (2/10) * |sample - avg2|

/-- The z-score of _update_anomaly_and_status on its non-degenerate path
(and of the spec): z = abs (sample - avg) / max 0.001 dispersion. -/
def zscore (sample avg2 std2 : ℚ) : ℚ := |sample - avg2| / max (1/1000) std2

/-- MonitorManager._update_anomaly_and_status: seed the baseline on the
first call, otherwise update the EWMA mean and absolute-deviation proxy,
compute per-direction z-scores, and set status / raise ThroughputAnomaly. -/
def update_anomaly_and_status (s : MonitorState) (ts : String) : MonitorState :=
  if ¬ s.baseline_init then
    { s with in_avg := s.latest_in_mbps, out_avg := s.latest_out_mbps
             baseline_init := true }
  else
    let in_avg := ewma_next s.in_avg s.latest_in_mbps
    let out_avg := ewma_next s.out_avg s.latest_out_mbps
    let in_std := dev_next s.in_std in_avg s.latest_in_mbps
    let out_std := dev_next s.out_std out_avg s.latest_out_mbps
    let z_in : ℚ := if in_std = 0 then 0
      else zscore s.latest_in_mbps in_avg in_std
    let z_out : ℚ := if out_std = 0 then 0
      else zscore s.latest_out_mbps out_avg out_std
    let s := { s with in_avg := in_avg, out_avg := out_avg
                      in_std := in_std, out_std := out_std }
    if ANOMALY_STD_THRESHOLD ≤ z_in ∨ ANOMALY_STD_THRESHOLD ≤ z_out then
      raise_alert { s with status := "ALERT" } ts "ThroughputAnomaly" "high" none
        "Throughput anomaly detected"
        [("in_mbps", .num s.latest_in_mbps), ("out_mbps", .num s.latest_out_mbps),
         ("z_in", .num (pyRound 2 z_in)), ("z_out", .num (pyRound 2 z_out))]
    else
      { s with status := "OK" }

/-- MonitorManager.stop: no-op when not running; otherwise clear the
running flag, set the sniffer stop flag, cancel and clear the task
handles, and log the shutdown. -/
def stop (s : MonitorState) (ts : String) : MonitorState :=
  if ¬ s.running then s
  else
    log_event { s with running := false, stop_sniff := true, tasks := [] }
      ts "INFO" "monitor" "Monitoring stopped" none

/-! ## Packet inspector (the cb closure inside MonitorManager._sniff_packets) -/

structure TCPInfo where
  flags : ℕ
  dport : ℕ
  deriving DecidableEq, Repr

structure UDPInfo where
  dport : ℕ
  deriving DecidableEq, Repr

/-- A parsed packet as the scapy callback sees it: an optional IP layer
(source address), optional TCP and UDP layers, and the UTC timestamp taken
at the top of the callback. -/
structure Packet where
  ip_src : Option String
  tcp : Option TCPInfo
  udp : Option UDPInfo
  ts : String
  deriving DecidableEq, Repr

/-- The per-packet callback cb of MonitorManager._sniff_packets: SYN
without ACK increments the SYN counter of the source IP and raises SynScan
at count 50 and beyond; sensitive TCP ports and amplification UDP ports
raise their alerts; every IP packet appends a generic INFO log entry. -/
def sniff_cb (s : MonitorState) (pkt : Packet) : MonitorState :=
  match pkt.ip_src with
  | none => s
  | some src =>
    let ts := pkt.ts
    let s :=
      match pkt.tcp with
      | none => s
      | some t =>
        let s :=
          if t.flags &&& 0x02 ≠ 0 ∧ t.flags &&& 0x10 = 0 then
            let s := { s with
              syn_counts := dictInsert s.syn_counts src (dictGetD s.syn_counts src 0 + 1) }
            if 50 ≤ dictGetD s.syn_counts src 0 then
              raise_alert s ts "SynScan" "medium" (some src)
                "Possible SYN scan detected (>=50 SYNs in window)"
                [("syn_count", .num ((dictGetD s.syn_counts src 0 : ℕ) : ℚ))]
            else s
          else s
        if t.dport = 22 ∨ t.dport = 23 ∨ t.dport = 3389 ∨ t.dport = 445 ∨ t.dport = 1433 then
          raise_alert s ts "SensitivePortAccess" "medium" (some src)
            ("Traffic to sensitive port " ++ toString t.dport)
            [("dst_port", .num t.dport)]
        else s
    let s :=
      match pkt.udp with
      | none => s
      | some u =>
        if u.dport = 53 ∨ u.dport = 123 ∨ u.dport = 1900 then
          raise_alert s ts "AmplificationVector" "low" (some src)
            ("Burst to UDP port " ++ toString u.dport)
            [("dst_port", .num u.dport)]
        else s
    { s with logs :=
        dappend LOG_BUFFER s.logs ⟨ts, "INFO", "sniffer", "packet", some src⟩ }

/-! ## Device scanner -/

/-- One answered row of the scapy srp call: the responder's protocol
source address and hardware source address. -/
structure ArpReply where
  psrc : String
  hwsrc : String
  deriving DecidableEq, Repr

/-- MonitorManager._scan_devices in the SCAPY branch: collect the probe
responders (stored, as in the source, under the key "ips"), append the
resolved local IP (under "ip"; absent when resolution fails), then
de-duplicate by d.get("ip", "") and drop the empty key. -/
def scan_devices (answered : List ArpReply) (local_ip : Option String) :
    List (List (String × String)) :=
  let devices := answered.map (fun r => [("ips", r.psrc), ("mac", r.hwsrc)])
  let devices := devices ++
    (match local_ip with
     | some ip => [[("ip", ip), ("mac", "")]]
     | none => [])
  let uniq := devices.foldl
    (fun (u : List (String × List (String × String))) d =>
      dictInsert u (dictGetD d "ip" "") d) []
  (uniq.filter (fun p => p.1 ≠ "")).map Prod.snd

/-- The merge step of MonitorManager._loop_device_scan: each scanned
device dict is stored in the device table under d["ip"] (every dict
returned by scan_devices carries a non-empty "ip" key, so d.get equals
the subscript there); existing entries for other IPs stay. -/
def merge_devices (s : MonitorState) (new_devices : List (List (String × String))) :
    MonitorState :=
  { s with devices :=
      new_devices.foldl (fun tbl d => dictInsert tbl (dictGetD d "ip" "") d) s.devices }

/-! ## Broadcast hub -/

/-- MonitorManager._snapshot (the wall-clock timestamp is the ts
argument). -/
def snapshot (s : MonitorState) (ts : String) : MonitorSnapshot :=
  { ts := ts
    inbound_mbps := s.latest_in_mbps
    outbound_mbps := s.latest_out_mbps
    status := s.status
    devices := s.devices.map Prod.snd
    alerts := latest 20 s.alerts
    logs := latest 50 s.logs }

/-- Models json.dumps(asdict(snap)): a concrete serialization of the
snapshot. The claims depend only on one string being built once and sent
identically to every observer, not on the JSON syntax itself. -/
def json_dumps (snap : MonitorSnapshot) : String := toString (repr snap)

/-- MonitorManager.unregister_ws. -/
def unregister_ws (s : MonitorState) (ws : Observer) (ts : String) : MonitorState :=
  if ws ∈ s.clients then
    log_event { s with clients := s.clients.erase ws }
      ts "INFO" "ws" "Client disconnected" none
  else s

/-- MonitorManager._broadcast: iterate over a copy of the client set,
attempt send_text on each (an observer with fails = true raises), collect
the failed ones, then unregister every failed one after the pass. Returns
the (id, payload) pairs actually delivered and the new state. -/
def broadcast (s : MonitorState) (text : String) (ts : String) :
    List (ℕ × String) × MonitorState :=
  let pass := s.clients.foldl
    (fun (acc : List (ℕ × String) × List Observer) ws =>
      if ws.fails then (acc.1, acc.2 ++ [ws])
      else (acc.1 ++ [(ws.id, text)], acc.2))
    ([], [])
  (pass.1, pass.2.foldl (fun st ws => unregister_ws st ws ts) s)

/-- One iteration of MonitorManager._loop_broadcast after the sleep: skip
entirely when there are no clients (no snapshot is constructed), else
build one snapshot, serialize it once and broadcast it. Returns the
snapshot if one was constructed, the delivered (id, payload) pairs, and
the new state. -/
def loop_broadcast_tick (s : MonitorState) (ts : String) :
    Option MonitorSnapshot × List (ℕ × String) × MonitorState :=
  if s.clients.isEmpty then (none, [], s)
  else
    let snap := snapshot s ts
    let msg := json_dumps snap
    let r := broadcast s msg ts
    (some snap, r.1, r.2)

/-! ## Throughput sampler -/

/-- Input of one throughput tick: the counter reading (none when
psutil.net_io_counters() raises), the wall-clock time, and the timestamp
string used for any alert raised on the tick. -/
structure TickInput where
  counters : Option NetCounters
  now_t : ℚ
  ts : String
  deriving DecidableEq, Repr

/-- Outcome of running the throughput loop: finished normally (running
became false or the modelled tick list was exhausted), or the task died
because an exception escaped the loop body. Both carry the manager state
and the loop-local prev reading at exit. -/
inductive LoopResult where
  | finished (s : MonitorState) (prev : NetCounters) (prev_t : ℚ)
  | died (err : String) (s : MonitorState) (prev : NetCounters) (prev_t : ℚ)
  deriving DecidableEq, Repr

/-- Lines 158 to 165 of one _loop_throughput iteration: delta the counters
against prev (negative deltas floored at zero), divide by the elapsed
wall-clock time (floored at one microsecond) and store the rounded mbps
values. -/
def set_latest_mbps (s : MonitorState) (prev : NetCounters) (prev_t : ℚ)
    (now_c : NetCounters) (now_t : ℚ) : MonitorState :=
  let dt : ℚ := max (1/1000000) (now_t - prev_t)
  let in_b : ℤ := max 0 ((now_c.bytes_recv : ℤ) - (prev.bytes_recv : ℤ))
  let out_b : ℤ := max 0 ((now_c.bytes_sent : ℤ) - (prev.bytes_sent : ℤ))
  { s with
    latest_in_mbps := pyRound 3 (((in_b : ℚ) * 8) / dt / 1000000)
    latest_out_mbps := pyRound 3 (((out_b : ℚ) * 8) / dt / 1000000) }

/-- Lines 171 to 182 of one _loop_throughput iteration: raise HighTraffic
(severity high) when either direction exceeds HIGH_TRAFFIC_MBPS. -/
def high_traffic_check (s : MonitorState) (ts : String) : MonitorState :=
  if HIGH_TRAFFIC_MBPS < s.latest_in_mbps ∨ HIGH_TRAFFIC_MBPS < s.latest_out_mbps then
    raise_alert s ts "HighTraffic" "high" none "High traffic volume detected"
      [("in_mbps", .num s.latest_in_mbps), ("out_mbps", .num s.latest_out_mbps),
       ("threshold", .num HIGH_TRAFFIC_MBPS)]
  else s

/-- The body of one successful _loop_throughput iteration: set the mbps
values, run the anomaly check and status update, then the independent
high-traffic check. -/
def throughput_tick_body (s : MonitorState) (prev : NetCounters) (prev_t : ℚ)
    (now_c : NetCounters) (now_t : ℚ) (ts : String) :
    MonitorState × NetCounters × ℚ :=
  (high_traffic_check
    (update_anomaly_and_status (set_latest_mbps s prev prev_t now_c now_t) ts) ts,
   now_c, now_t)

/-- MonitorManager._loop_throughput over a finite schedule of ticks. The
loop body has no exception handler, so a failing counter read propagates
and the task dies at that tick with the state unchanged; remaining ticks
are not processed. -/
def loop_throughput (s : MonitorState) (prev : NetCounters) (prev_t : ℚ) :
    List TickInput → LoopResult
  | [] => .finished s prev prev_t
  | tick :: rest =>
    if s.running then
      match tick.counters with
      | none => .died "net_io_counters failed" s prev prev_t
      | some now_c =>
        let r := throughput_tick_body s prev prev_t now_c tick.now_t tick.ts
        loop_throughput r.1 r.2.1 r.2.2 rest
    else .finished s prev prev_t

/-! ## Derived helpers used in the statements -/

/-- Number of alerts of a given type in a buffer. -/
def countType (t : String) (l : List Alert) : ℕ := l.countP (fun a => a.type = t)

/-- The SYN-only probe packet the SYN-scan property feeds the inspector
(TCP flags 0x02 = SYN set, ACK clear; a non-sensitive destination port). -/
def syn_packet (src ts : String) : Packet :=
  { ip_src := some src, tcp := some { flags := 2, dport := 80 }, udp := none, ts := ts }

/-- The SynScan alert the callback raises when the counter value is c. -/
def syn_alert (src ts : String) (c : ℕ) : Alert :=
  { timestamp := ts, type := "SynScan", severity := "medium", source_ip := some src
    message := "Possible SYN scan detected (>=50 SYNs in window)"
    details := [("syn_count", .num c)] }

/-- Feed n copies of the SYN-only packet from one source into the
inspector, starting from the freshly initialized manager state (one
housekeeping window, counters starting at zero). -/
def feed_syn (src ts : String) : ℕ → MonitorState
  | 0 => initState
  | n + 1 => sniff_cb (feed_syn src ts n) (syn_packet src ts)

/-- The inbound z-score a non-seeding anomaly check computes over the
updated baseline of state s. -/
def zIn (s : MonitorState) : ℚ :=
  zscore s.latest_in_mbps (ewma_next s.in_avg s.latest_in_mbps)
    (dev_next s.in_std (ewma_next s.in_avg s.latest_in_mbps) s.latest_in_mbps)

/-- The outbound z-score a non-seeding anomaly check computes over the
updated baseline of state s. -/
def zOut (s : MonitorState) : ℚ :=
  zscore s.latest_out_mbps (ewma_next s.out_avg s.latest_out_mbps)
    (dev_next s.out_std (ewma_next s.out_avg s.latest_out_mbps) s.latest_out_mbps)

/-- The ThroughputAnomaly alert a non-seeding anomaly check raises from
state s at timestamp ts. -/
def anomaly_alert (s : MonitorState) (ts : String) : Alert :=
  { timestamp := ts, type := "ThroughputAnomaly", severity := "high", source_ip := none
    message := "Throughput anomaly detected"
    details := [("in_mbps", .num s.latest_in_mbps), ("out_mbps", .num s.latest_out_mbps),
                ("z_in", .num (pyRound 2 (zIn s))), ("z_out", .num (pyRound 2 (zOut s)))] }

/-- A distinguishable alert used to exercise the buffer property. -/
def sampleAlert (i : ℕ) : Alert :=
  { timestamp := toString i, type := "T", severity := "low"
    source_ip := none, message := "m", details := [] }

/-- A distinguishable log entry used to exercise the buffer property. -/
def sampleLog (i : ℕ) : SecurityLog :=
  { timestamp := toString i, level := "INFO", source := "s", message := "m"
    ip_address := none }

/-- A state with three registered observers, the middle one failing. -/
def wsState : MonitorState :=
  { initState with clients := [⟨1, false⟩, ⟨2, true⟩, ⟨3, false⟩] }

/-- A seeded baseline state about 10 mbps whose current inbound sample
spikes to 500 mbps. -/
def witState : MonitorState :=
  { initState with baseline_init := true, latest_in_mbps := 500
                   in_avg := 10, out_avg := 10 }

/-! ## Theorems -/

-- A deque append below capacity is a plain append.
theorem dappend_of_lt {α : Type} (cap : ℕ) (xs : List α) (x : α)
    (h : xs.length < cap) : dappend cap xs x = xs ++ [x] := by
  rw [dappend, if_neg (by omega)]

/-- C5: every alert insertion goes through raise_alert, which appends
exactly one Alert and, immediately after it, exactly one derived
SecurityLog carrying the same timestamp, whose level is WARN when the
severity is not low and INFO when it is low. -/
theorem raise_alert_pairs_log (s : MonitorState) (ts atype severity : String)
    (src : Option String) (message : String) (details : List (String × JVal)) :
    ∃ a l,
      (raise_alert s ts atype severity src message details).alerts
        = dappend ALERT_BUFFER s.alerts a ∧
      (raise_alert s ts atype severity src message details).logs
        = dappend LOG_BUFFER s.logs l ∧
      a.timestamp = ts ∧ l.timestamp = a.timestamp ∧
      a.type = atype ∧ a.severity = severity ∧ a.source_ip = src ∧
      l.level = (if severity ≠ "low" then "WARN" else "INFO") ∧
      l.ip_address = src :=
  ⟨_, _, rfl, rfl, rfl, rfl, rfl, rfl, rfl, rfl, rfl⟩

/-- C7: the first (seeding) anomaly check copies both samples into the
per-direction baseline averages, marks the baseline initialized, raises
no alert and leaves the status untouched, whatever the sample values. -/
theorem first_update_seeds_baseline (s : MonitorState) (ts : String)
    (h : s.baseline_init = false) :
    (update_anomaly_and_status s ts).in_avg = s.latest_in_mbps ∧
    (update_anomaly_and_status s ts).out_avg = s.latest_out_mbps ∧
    (update_anomaly_and_status s ts).baseline_init = true ∧
    (update_anomaly_and_status s ts).alerts = s.alerts ∧
    (update_anomaly_and_status s ts).logs = s.logs ∧
    (update_anomaly_and_status s ts).status = s.status := by
  simp [update_anomaly_and_status, h]

theorem first_update_seeds_baseline_witness :
    initState.baseline_init = false ∧
    ((update_anomaly_and_status initState "t").in_avg = initState.latest_in_mbps ∧
     (update_anomaly_and_status initState "t").out_avg = initState.latest_out_mbps ∧
     (update_anomaly_and_status initState "t").baseline_init = true ∧
     (update_anomaly_and_status initState "t").alerts = initState.alerts ∧
     (update_anomaly_and_status initState "t").logs = initState.logs ∧
     (update_anomaly_and_status initState "t").status = initState.status) :=
  ⟨rfl, first_update_seeds_baseline initState "t" rfl⟩

/-- C10: stop on a non-running engine changes no state at all; stop on a
running engine only clears the running flag, sets the sniffer stop flag,
clears the task handles and appends exactly one INFO shutdown log entry,
leaving alerts, devices, SYN counters, throughput values, baseline and
status unchanged. -/
theorem stop_frame (s : MonitorState) (ts : String) :
    (s.running = false → stop s ts = s) ∧
    (s.running = true →
      (stop s ts).alerts = s.alerts ∧
      (stop s ts).devices = s.devices ∧
      (stop s ts).syn_counts = s.syn_counts ∧
      (stop s ts).latest_in_mbps = s.latest_in_mbps ∧
      (stop s ts).latest_out_mbps = s.latest_out_mbps ∧
      (stop s ts).status = s.status ∧
      (stop s ts).baseline_init = s.baseline_init ∧
      (stop s ts).in_avg = s.in_avg ∧
      (stop s ts).out_avg = s.out_avg ∧
      (stop s ts).in_std = s.in_std ∧
      (stop s ts).out_std = s.out_std ∧
      (stop s ts).clients = s.clients ∧
      (stop s ts).running = false ∧
      (stop s ts).stop_sniff = true ∧
      (stop s ts).tasks = [] ∧
      (stop s ts).logs = dappend LOG_BUFFER s.logs
        ⟨ts, "INFO", "monitor", "Monitoring stopped", none⟩) := by
  constructor <;> intro h <;> simp [stop, log_event, h]

theorem stop_frame_witness :
    (initState.running = false ∧ stop initState "t" = initState) ∧
    ({ initState with running := true }.running = true ∧
      (stop { initState with running := true } "t").alerts
        = { initState with running := true }.alerts ∧
      (stop { initState with running := true } "t").running = false ∧
      (stop { initState with running := true } "t").stop_sniff = true) :=
  by
  obtain ⟨h1, h2, h3, h4, h5, h6, h7, h8, h9, h10, h11, h12, h13, h14, h15, h16⟩ :=
    (stop_frame { initState with running := true } "t").2 rfl
  exact ⟨⟨rfl, (stop_frame initState "t").1 rfl⟩, rfl, h1, h13, h14⟩

/-- C2 (code bug, evaluated at the failing input): a scan whose
address-resolution probe got one responder returns only the localhost
entry, and the merged device table does not contain the responder IP:
the responder dict is stored under the key "ips" while de-duplication
and merging read "ip", so every probe responder collapses onto the empty
key and is filtered out. -/
theorem scan_devices_drops_probe_responders :
    scan_devices [⟨"192.168.137.2", "aa:bb:cc:dd:ee:ff"⟩] (some "192.168.137.1")
      = [[("ip", "192.168.137.1"), ("mac", "")]] ∧
    (merge_devices initState
        (scan_devices [⟨"192.168.137.2", "aa:bb:cc:dd:ee:ff"⟩]
          (some "192.168.137.1"))).devices.map Prod.fst
      = ["192.168.137.1"] :=
  ⟨rfl, rfl⟩

/-- C1 (counterexample): with the engine running, a schedule whose first
tick has a failing counter read and whose second tick would succeed ends
with the loop dead at the first tick — the second tick is never
processed, refuting the claim that the loop skips the failed tick and
continues to its next tick. -/
theorem loop_throughput_cannot_skip_failed_tick :
    loop_throughput { initState with running := true } ⟨0, 0⟩ 0
        [⟨none, 1, "t1"⟩, ⟨some ⟨1000, 1000⟩, 2, "t2"⟩]
      = .died "net_io_counters failed" { initState with running := true } ⟨0, 0⟩ 0 := by
  rfl

/-- C1 (amended): on a tick whose counter read fails, the previous
throughput values, baseline state, status and alert buffer are retained
(the failing read is the first statement of the iteration, so nothing was
mutated) and no alert is raised; but the loop body has no exception
handler, so the exception escapes, the task dies, and the remaining ticks
are not processed — the loop terminates instead of continuing. -/
theorem loop_throughput_failed_read_kills_task (s : MonitorState)
    (prev : NetCounters) (prev_t now_t : ℚ) (ts : String) (rest : List TickInput)
    (h : s.running = true) :
    loop_throughput s prev prev_t (⟨none, now_t, ts⟩ :: rest)
      = .died "net_io_counters failed" s prev prev_t := by
  simp [loop_throughput, h]

theorem loop_throughput_failed_read_kills_task_witness :
    { initState with running := true }.running = true ∧
    loop_throughput { initState with running := true } ⟨5, 5⟩ 0
        [⟨none, 1, "u1"⟩, ⟨some ⟨9, 9⟩, 2, "u2"⟩, ⟨some ⟨9, 9⟩, 3, "u3"⟩]
      = .died "net_io_counters failed" { initState with running := true } ⟨5, 5⟩ 0 :=
  ⟨rfl, loop_throughput_failed_read_kills_task { initState with running := true }
    ⟨5, 5⟩ 0 1 "u1" [⟨some ⟨9, 9⟩, 2, "u2"⟩, ⟨some ⟨9, 9⟩, 3, "u3"⟩] rfl⟩

-- Folding deque appends over a bounded buffer keeps exactly the most
-- recent cap entries, in insertion order.
theorem foldl_dappend_drop {α : Type} (cap : ℕ) (hcap : 1 ≤ cap) (l : List α) :
    ∀ b : List α, b.length ≤ cap →
      l.foldl (dappend cap) b = (b ++ l).drop (b.length + l.length - cap) := by
  induction l with
  | nil =>
    intro b hb
    simp [Nat.sub_eq_zero_of_le hb]
  | cons x xs ih =>
    intro b hb
    rw [List.foldl_cons]
    by_cases h : cap ≤ b.length
    · have hbc : b.length = cap := le_antisymm hb h
      obtain ⟨hd, tl, rfl⟩ : ∃ hd tl, b = hd :: tl := by
        cases b with
        | nil => exfalso; simp at hbc; omega
        | cons hd tl => exact ⟨hd, tl, rfl⟩
      have h1 : dappend cap (hd :: tl) x = tl ++ [x] := by
        simp only [dappend, if_pos h, List.tail_cons]
      rw [h1]
      have htl : tl.length + 1 = cap := by simpa using hbc
      rw [ih (tl ++ [x]) (by simp; omega)]
      have h3 : (tl ++ [x]).length + xs.length - cap = xs.length := by
        simp; omega
      have h4 : (hd :: tl).length + (x :: xs).length - cap = xs.length + 1 := by
        simp; omega
      rw [h3, h4]
      simp [List.append_assoc]
    · have h1 : dappend cap b x = b ++ [x] := dappend_of_lt cap b x (by omega)
      rw [h1, ih (b ++ [x]) (by simp; omega)]
      have h2 : (b ++ [x]).length + xs.length - cap
          = b.length + (x :: xs).length - cap := by simp; omega
      rw [h2, List.append_assoc]
      rfl

/-- C4: for every k, after inserting ALERT_BUFFER + k alerts into the
empty alert buffer, reading the latest ALERT_BUFFER entries returns
exactly the last ALERT_BUFFER alerts inserted, in insertion order; the
same bounded-FIFO property holds for the log buffer with capacity
LOG_BUFFER. -/
theorem buffer_fifo (k : ℕ) (as : List Alert) (ls : List SecurityLog)
    (ha : as.length = ALERT_BUFFER + k) (hl : ls.length = LOG_BUFFER + k) :
    latest ALERT_BUFFER (as.foldl (dappend ALERT_BUFFER) []) = as.drop k ∧
    latest LOG_BUFFER (ls.foldl (dappend LOG_BUFFER) []) = ls.drop k := by
  constructor
  · rw [foldl_dappend_drop ALERT_BUFFER (by norm_num [ALERT_BUFFER]) as [] (by simp)]
    simp only [List.nil_append, List.length_nil, Nat.zero_add, ha,
      Nat.add_sub_cancel_left, latest, List.length_drop]
    rw [show ALERT_BUFFER + k - k - ALERT_BUFFER = 0 from by omega]
    rfl
  · rw [foldl_dappend_drop LOG_BUFFER (by norm_num [LOG_BUFFER]) ls [] (by simp)]
    simp only [List.nil_append, List.length_nil, Nat.zero_add, hl,
      Nat.add_sub_cancel_left, latest, List.length_drop]
    rw [show LOG_BUFFER + k - k - LOG_BUFFER = 0 from by omega]
    rfl

theorem buffer_fifo_witness :
    ((List.range 201).map sampleAlert).length = ALERT_BUFFER + 1 ∧
    ((List.range 501).map sampleLog).length = LOG_BUFFER + 1 ∧
    (latest ALERT_BUFFER
        (((List.range 201).map sampleAlert).foldl (dappend ALERT_BUFFER) [])
      = ((List.range 201).map sampleAlert).drop 1 ∧
     latest LOG_BUFFER
        (((List.range 501).map sampleLog).foldl (dappend LOG_BUFFER) [])
      = ((List.range 501).map sampleLog).drop 1) :=
  ⟨by simp [ALERT_BUFFER], by simp [LOG_BUFFER],
   buffer_fifo 1 ((List.range 201).map sampleAlert) ((List.range 501).map sampleLog)
     (by simp [ALERT_BUFFER]) (by simp [LOG_BUFFER])⟩

/-- C3: on every non-seeding anomaly check from a state whose dispersion
proxies are positive (they start at 0.1 and the EWMA keeps them
positive), the per-direction z-score is |sample - avg| / max(0.001,
dispersion) over the updated baseline, status becomes ALERT exactly when
either z-score is at or above ANOMALY_STD_THRESHOLD, a ThroughputAnomaly
alert is appended exactly in the ALERT case, and otherwise status is OK
with no alert. -/
theorem anomaly_status_iff (s : MonitorState) (ts : String)
    (hinit : s.baseline_init = true)
    (hin : 0 < s.in_std) (hout : 0 < s.out_std)
    (hroom : s.alerts.length < ALERT_BUFFER) :
    ((update_anomaly_and_status s ts).status = "ALERT" ↔
      ANOMALY_STD_THRESHOLD ≤ zIn s ∨ ANOMALY_STD_THRESHOLD ≤ zOut s) ∧
    ((ANOMALY_STD_THRESHOLD ≤ zIn s ∨ ANOMALY_STD_THRESHOLD ≤ zOut s) →
      (update_anomaly_and_status s ts).alerts = s.alerts ++ [anomaly_alert s ts]) ∧
    (¬ (ANOMALY_STD_THRESHOLD ≤ zIn s ∨ ANOMALY_STD_THRESHOLD ≤ zOut s) →
      (update_anomaly_and_status s ts).status = "OK" ∧
      (update_anomaly_and_status s ts).alerts = s.alerts) := by
  have hin2 : dev_next s.in_std (ewma_next s.in_avg s.latest_in_mbps)
      s.latest_in_mbps ≠ 0 := by
    unfold dev_next
    have h1 := abs_nonneg (s.latest_in_mbps - ewma_next s.in_avg s.latest_in_mbps)
    intro hz
    nlinarith
  have hout2 : dev_next s.out_std (ewma_next s.out_avg s.latest_out_mbps)
      s.latest_out_mbps ≠ 0 := by
    unfold dev_next
    have h1 := abs_nonneg (s.latest_out_mbps - ewma_next s.out_avg s.latest_out_mbps)
    intro hz
    nlinarith
  have hstep : update_anomaly_and_status s ts =
      if ANOMALY_STD_THRESHOLD ≤ zIn s ∨ ANOMALY_STD_THRESHOLD ≤ zOut s then
        raise_alert
          { s with in_avg := ewma_next s.in_avg s.latest_in_mbps
                   out_avg := ewma_next s.out_avg s.latest_out_mbps
                   in_std := dev_next s.in_std (ewma_next s.in_avg s.latest_in_mbps)
                     s.latest_in_mbps
                   out_std := dev_next s.out_std (ewma_next s.out_avg s.latest_out_mbps)
                     s.latest_out_mbps
                   status := "ALERT" }
          ts "ThroughputAnomaly" "high" none "Throughput anomaly detected"
          [("in_mbps", .num s.latest_in_mbps), ("out_mbps", .num s.latest_out_mbps),
           ("z_in", .num (pyRound 2 (zIn s))), ("z_out", .num (pyRound 2 (zOut s)))]
      else
        { s with in_avg := ewma_next s.in_avg s.latest_in_mbps
                 out_avg := ewma_next s.out_avg s.latest_out_mbps
                 in_std := dev_next s.in_std (ewma_next s.in_avg s.latest_in_mbps)
                   s.latest_in_mbps
                 out_std := dev_next s.out_std (ewma_next s.out_avg s.latest_out_mbps)
                   s.latest_out_mbps
                 status := "OK" } := by
    unfold update_anomaly_and_status
    rw [if_neg (by simp [hinit])]
    simp only [if_neg hin2, if_neg hout2, zIn, zOut]
  by_cases hc : ANOMALY_STD_THRESHOLD ≤ zIn s ∨ ANOMALY_STD_THRESHOLD ≤ zOut s
  · rw [hstep, if_pos hc]
    refine ⟨?_, fun _ => ?_, fun hnc => absurd hc hnc⟩
    · simp only [raise_alert]
      simp [hc]
    · simp only [raise_alert]
      rw [dappend_of_lt ALERT_BUFFER _ _ hroom]
      rfl
  · rw [hstep, if_neg hc]
    exact ⟨by simp [hc], fun h => absurd h hc, fun _ => ⟨rfl, rfl⟩⟩

theorem anomaly_status_iff_witness :
    (witState.baseline_init = true ∧ 0 < witState.in_std ∧ 0 < witState.out_std ∧
     witState.alerts.length < ALERT_BUFFER) ∧
    (update_anomaly_and_status witState "t").status = "ALERT" := by
  have h := anomaly_status_iff witState "t" rfl (by norm_num [witState, initState])
    (by norm_num [witState, initState]) (by norm_num [witState, initState, ALERT_BUFFER])
  refine ⟨⟨rfl, by norm_num [witState, initState], by norm_num [witState, initState],
    by norm_num [witState, initState, ALERT_BUFFER]⟩, ?_⟩
  refine h.1.mpr (Or.inl ?_)
  norm_num [zIn, zscore, ewma_next, dev_next, witState, initState, ANOMALY_STD_THRESHOLD]

-- The dispersion proxies start at 0.1 in initState and every anomaly
-- check keeps them positive, so the positivity hypotheses of the
-- non-seeding check hold in every reachable state.
theorem update_anomaly_preserves_std_pos (s : MonitorState) (ts : String)
    (hin : 0 < s.in_std) (hout : 0 < s.out_std) :
    0 < (update_anomaly_and_status s ts).in_std ∧
    0 < (update_anomaly_and_status s ts).out_std := by
  unfold update_anomaly_and_status
  split
  · exact ⟨hin, hout⟩
  · dsimp only
    have h1 : 0 < dev_next s.in_std (ewma_next s.in_avg s.latest_in_mbps)
        s.latest_in_mbps := by
      unfold dev_next
      have := abs_nonneg (s.latest_in_mbps - ewma_next s.in_avg s.latest_in_mbps)
      nlinarith
    have h2 : 0 < dev_next s.out_std (ewma_next s.out_avg s.latest_out_mbps)
        s.latest_out_mbps := by
      unfold dev_next
      have := abs_nonneg (s.latest_out_mbps - ewma_next s.out_avg s.latest_out_mbps)
      nlinarith
    split <;> split <;> split
    all_goals exact ⟨h1, h2⟩

-- The anomaly check never changes the throughput fields, and changes the
-- alert buffer at most by one appended ThroughputAnomaly alert.
theorem update_anomaly_effects (s : MonitorState) (ts : String) :
    (update_anomaly_and_status s ts).latest_in_mbps = s.latest_in_mbps ∧
    (update_anomaly_and_status s ts).latest_out_mbps = s.latest_out_mbps ∧
    ((update_anomaly_and_status s ts).alerts = s.alerts ∨
      ∃ a : Alert, (update_anomaly_and_status s ts).alerts
          = dappend ALERT_BUFFER s.alerts a ∧ a.type = "ThroughputAnomaly") := by
  unfold update_anomaly_and_status
  split
  · exact ⟨rfl, rfl, Or.inl rfl⟩
  · dsimp only
    split <;> split <;> split
    all_goals first
      | exact ⟨rfl, rfl, Or.inr ⟨_, rfl, rfl⟩⟩
      | exact ⟨rfl, rfl, Or.inl rfl⟩

-- countType over a single appended alert.
theorem countType_append (t : String) (l : List Alert) (a : Alert) :
    countType t (l ++ [a]) = countType t l + (if a.type = t then 1 else 0) := by
  simp [countType, List.countP_append, List.countP_cons]

/-- C8: on a throughput tick, exactly one HighTraffic alert (severity
high) is raised when either computed mbps value exceeds
HIGH_TRAFFIC_MBPS, and none otherwise; this holds for every baseline
state, hence independently of the anomaly verdict on the same tick (a
ThroughputAnomaly alert may be appended on the same tick without
affecting the HighTraffic count). -/
theorem high_traffic_iff (s : MonitorState) (prev : NetCounters) (prev_t : ℚ)
    (now_c : NetCounters) (now_t : ℚ) (ts : String)
    (hroom : s.alerts.length + 2 ≤ ALERT_BUFFER) :
    countType "HighTraffic" (throughput_tick_body s prev prev_t now_c now_t ts).1.alerts
      = countType "HighTraffic" s.alerts +
        (if HIGH_TRAFFIC_MBPS < (throughput_tick_body s prev prev_t now_c now_t ts).1.latest_in_mbps
            ∨ HIGH_TRAFFIC_MBPS < (throughput_tick_body s prev prev_t now_c now_t ts).1.latest_out_mbps
          then 1 else 0) ∧
    ((HIGH_TRAFFIC_MBPS < (throughput_tick_body s prev prev_t now_c now_t ts).1.latest_in_mbps
        ∨ HIGH_TRAFFIC_MBPS < (throughput_tick_body s prev prev_t now_c now_t ts).1.latest_out_mbps) →
      ∃ a, (throughput_tick_body s prev prev_t now_c now_t ts).1.alerts.getLast? = some a ∧
        a.type = "HighTraffic" ∧ a.severity = "high") := by
  simp only [throughput_tick_body]
  have hs1a : (set_latest_mbps s prev prev_t now_c now_t).alerts = s.alerts := rfl
  obtain ⟨e1, e2, e3⟩ :=
    update_anomaly_effects (set_latest_mbps s prev prev_t now_c now_t) ts
  rw [hs1a] at e3
  set s2 := update_anomaly_and_status (set_latest_mbps s prev prev_t now_c now_t) ts
    with hs2
  have hcount : countType "HighTraffic" s2.alerts = countType "HighTraffic" s.alerts := by
    rcases e3 with h | ⟨a, heq, hty⟩
    · rw [h]
    · rw [heq, dappend_of_lt _ _ _ (by omega), countType_append]
      simp [hty]
  have hlen : s2.alerts.length ≤ s.alerts.length + 1 := by
    rcases e3 with h | ⟨a, heq, hty⟩
    · rw [h]
      omega
    · rw [heq, dappend_of_lt _ _ _ (by omega)]
      simp
  have hlat_in : (high_traffic_check s2 ts).latest_in_mbps = s2.latest_in_mbps := by
    unfold high_traffic_check
    split <;> rfl
  have hlat_out : (high_traffic_check s2 ts).latest_out_mbps = s2.latest_out_mbps := by
    unfold high_traffic_check
    split <;> rfl
  simp only [hlat_in, hlat_out]
  by_cases hc : HIGH_TRAFFIC_MBPS < s2.latest_in_mbps ∨ HIGH_TRAFFIC_MBPS < s2.latest_out_mbps
  · unfold high_traffic_check
    rw [← hs2]
    rw [if_pos hc, if_pos hc]
    constructor
    · simp only [raise_alert]
      rw [dappend_of_lt _ _ _ (by omega), countType_append, hcount]
      rfl
    · intro _
      simp only [raise_alert]
      rw [dappend_of_lt _ _ _ (by omega)]
      exact ⟨_, by rw [List.getLast?_concat], rfl, rfl⟩
  · unfold high_traffic_check
    rw [← hs2]
    rw [if_neg hc, if_neg hc]
    exact ⟨by omega, fun h => absurd h hc⟩

theorem high_traffic_iff_witness :
    initState.alerts.length + 2 ≤ ALERT_BUFFER ∧
    countType "HighTraffic"
        (throughput_tick_body initState ⟨0, 0⟩ 0 ⟨10000000, 0⟩ 1 "t").1.alerts
      = countType "HighTraffic" initState.alerts +
        (if HIGH_TRAFFIC_MBPS <
              (throughput_tick_body initState ⟨0, 0⟩ 0 ⟨10000000, 0⟩ 1 "t").1.latest_in_mbps
            ∨ HIGH_TRAFFIC_MBPS <
              (throughput_tick_body initState ⟨0, 0⟩ 0 ⟨10000000, 0⟩ 1 "t").1.latest_out_mbps
          then 1 else 0) :=
  ⟨by norm_num [initState, ALERT_BUFFER],
   (high_traffic_iff initState ⟨0, 0⟩ 0 ⟨10000000, 0⟩ 1 "t"
     (by norm_num [initState, ALERT_BUFFER])).1⟩

-- One SYN-only packet from src: the counter becomes m + 1 and a SynScan
-- alert is appended exactly when m + 1 has reached 50.
theorem sniff_cb_syn_step (src ts : String) (s : MonitorState) (m : ℕ)
    (hc : s.syn_counts = if m = 0 then [] else [(src, m)]) :
    (sniff_cb s (syn_packet src ts)).syn_counts = [(src, m + 1)] ∧
    (sniff_cb s (syn_packet src ts)).alerts =
      (if 50 ≤ m + 1 then dappend ALERT_BUFFER s.alerts (syn_alert src ts (m + 1))
       else s.alerts) := by
  have hand1 : (2 : ℕ) &&& 2 = 2 := by decide
  have hand2 : (2 : ℕ) &&& 16 = 0 := by decide
  by_cases hm : m = 0
  · subst hm
    rw [if_pos rfl] at hc
    simp [sniff_cb, syn_packet, hc, dictInsert, dictGetD, raise_alert, syn_alert,
      hand1, hand2]
  · rw [if_neg hm] at hc
    by_cases h50 : 50 ≤ m + 1
    · simp [sniff_cb, syn_packet, hc, dictInsert, dictGetD, raise_alert, syn_alert,
        h50, hand1, hand2]
    · simp [sniff_cb, syn_packet, hc, dictInsert, dictGetD, raise_alert, syn_alert,
        h50, hand1, hand2]

-- After n SYN-only packets the counter reads n and the alert buffer holds
-- exactly the SynScan alerts for the counts 50 through n.
theorem feed_syn_closed (src ts : String) :
    ∀ n : ℕ, n ≤ ALERT_BUFFER + 49 →
      (feed_syn src ts n).syn_counts = (if n = 0 then [] else [(src, n)]) ∧
      (feed_syn src ts n).alerts
        = (List.range' 50 (n - 49)).map (fun c => syn_alert src ts c) := by
  intro n
  induction n with
  | zero => exact fun _ => ⟨rfl, rfl⟩
  | succ n ih =>
    intro hn
    obtain ⟨hc, ha⟩ := ih (by omega)
    obtain ⟨hc2, ha2⟩ := sniff_cb_syn_step src ts (feed_syn src ts n) n hc
    refine ⟨by simpa using hc2, ?_⟩
    simp only [feed_syn]
    rw [ha2, ha]
    by_cases h50 : 50 ≤ n + 1
    · rw [if_pos h50]
      have hlen : ((List.range' 50 (n - 49)).map
          (fun c => syn_alert src ts c)).length < ALERT_BUFFER := by
        simp
        omega
      rw [dappend_of_lt _ _ _ hlen]
      have he : n + 1 - 49 = (n - 49) + 1 := by omega
      rw [he, List.range'_concat, List.map_append]
      congr 1
      simp
      congr 1
      omega
    · rw [if_neg h50]
      have he : n + 1 - 49 = 0 := by omega
      have he2 : n - 49 = 0 := by omega
      rw [he, he2]

/-- C6: feeding the inspector n SYN-without-ACK packets from one source
IP within one housekeeping window leaves the alert buffer holding exactly
the SynScan alerts (severity medium) for the counts 50 through n: no
alert while n is at most 49, exactly one raised by the 50th packet, and
exactly one more per further qualifying packet while the count stays at
or above 50. -/
theorem syn_scan_threshold (src ts : String) (n : ℕ) (hn : n ≤ ALERT_BUFFER + 49) :
    (feed_syn src ts n).alerts
      = (List.range' 50 (n - 49)).map (fun c => syn_alert src ts c) ∧
    countType "SynScan" (feed_syn src ts n).alerts = n - 49 := by
  obtain ⟨hc, ha⟩ := feed_syn_closed src ts n hn
  refine ⟨ha, ?_⟩
  rw [ha]
  simp only [countType, List.countP_map]
  rw [List.countP_eq_length.mpr (fun c _ => by simp [syn_alert])]
  simp

theorem syn_scan_threshold_witness :
    50 ≤ ALERT_BUFFER + 49 ∧
    ((feed_syn "10.0.0.5" "t" 50).alerts
        = (List.range' 50 (50 - 49)).map (fun c => syn_alert "10.0.0.5" "t" c) ∧
     countType "SynScan" (feed_syn "10.0.0.5" "t" 50).alerts = 50 - 49) :=
  ⟨by norm_num [ALERT_BUFFER],
   syn_scan_threshold "10.0.0.5" "t" 50 (by norm_num [ALERT_BUFFER])⟩

-- The send pass of _broadcast delivers the payload to every non-failing
-- observer, in order, and collects the failing ones, in order.
theorem broadcast_pass_spec (text : String) (cs : List Observer) :
    ∀ acc : List (ℕ × String) × List Observer,
      cs.foldl
        (fun (acc : List (ℕ × String) × List Observer) ws =>
          if ws.fails then (acc.1, acc.2 ++ [ws])
          else (acc.1 ++ [(ws.id, text)], acc.2)) acc
        = (acc.1 ++ (cs.filter (fun ws => !ws.fails)).map (fun ws => (ws.id, text)),
           acc.2 ++ cs.filter (fun ws => ws.fails)) := by
  induction cs with
  | nil => intro acc; simp
  | cons c t ih =>
    intro acc
    rw [List.foldl_cons]
    by_cases h : c.fails
    · rw [if_pos h, ih]
      simp [List.filter_cons, h]
    · rw [if_neg h, ih]
      simp [List.filter_cons, h]

-- Unregistering a list of observers only touches the client registry
-- (and the log); its effect on the registry is a fold of erasures.
theorem unregister_fold_clients (ts : String) :
    ∀ (ds : List Observer) (s : MonitorState),
      (ds.foldl (fun st ws => unregister_ws st ws ts) s).clients
        = ds.foldl (fun cs ws => if ws ∈ cs then cs.erase ws else cs) s.clients := by
  intro ds
  induction ds with
  | nil => intro s; rfl
  | cons d t ih =>
    intro s
    rw [List.foldl_cons, List.foldl_cons, ih]
    congr 1
    by_cases h : d ∈ s.clients
    · simp [unregister_ws, log_event, h]
    · simp [unregister_ws, h]

-- Erasing elements all different from the head leaves the head in place.
theorem foldl_erase_cons {α : Type} [DecidableEq α] (c : α) :
    ∀ (ds l : List α), (∀ w ∈ ds, w ≠ c) →
      ds.foldl (fun cl w => if w ∈ cl then cl.erase w else cl) (c :: l)
        = c :: ds.foldl (fun cl w => if w ∈ cl then cl.erase w else cl) l := by
  intro ds
  induction ds with
  | nil => intro l _; rfl
  | cons w t ih =>
    intro l hne
    rw [List.foldl_cons, List.foldl_cons]
    have hwc : w ≠ c := hne w (List.mem_cons_self w t)
    have hrest : ∀ x ∈ t, x ≠ c := fun x hx => hne x (List.mem_cons_of_mem w hx)
    by_cases h : w ∈ l
    · rw [if_pos (List.mem_cons_of_mem c h), if_pos h,
        List.erase_cons_tail (by simpa using fun he => hwc he.symm)]
      exact ih _ hrest
    · rw [if_neg (by
        intro hmem
        rcases List.mem_cons.mp hmem with h1 | h1
        · exact hwc h1
        · exact h h1), if_neg h]
      exact ih l hrest

-- Erasing exactly the elements satisfying p from a duplicate-free list
-- keeps exactly the elements not satisfying p, in order.
theorem eraseAll_filter {α : Type} [DecidableEq α] (p : α → Bool) :
    ∀ cs : List α, cs.Nodup →
      (cs.filter p).foldl (fun cl w => if w ∈ cl then cl.erase w else cl) cs
        = cs.filter (fun a => !p a) := by
  intro cs
  induction cs with
  | nil => intro _; rfl
  | cons c t ih =>
    intro hnd
    have hct : c ∉ t := (List.nodup_cons.mp hnd).1
    have hnt : t.Nodup := (List.nodup_cons.mp hnd).2
    by_cases h : p c
    · rw [List.filter_cons_of_pos h, List.foldl_cons,
        if_pos (List.mem_cons_self c t), List.erase_cons_head, ih hnt,
        List.filter_cons_of_neg (by simp [h])]
    · rw [List.filter_cons_of_neg (by simpa using h),
        foldl_erase_cons c (t.filter p) t
          (fun w hw he => hct (he ▸ List.mem_of_mem_filter hw)),
        ih hnt, List.filter_cons_of_pos (by simp [h])]

/-- C9: on a broadcast tick with no registered observers, nothing happens
and no snapshot is constructed; with at least one observer, exactly one
snapshot is built and serialized once, the identical serialized payload
is delivered to every observer whose send succeeds (one observer failing
does not block delivery to the others), and every observer whose send
failed is removed from the registry after the broadcast pass. -/
theorem broadcast_tick_spec (s : MonitorState) (ts : String)
    (hnd : s.clients.Nodup) :
    (s.clients = [] → loop_broadcast_tick s ts = (none, [], s)) ∧
    (s.clients ≠ [] →
      (loop_broadcast_tick s ts).1 = some (snapshot s ts) ∧
      (loop_broadcast_tick s ts).2.1
        = (s.clients.filter (fun ws => !ws.fails)).map
            (fun ws => (ws.id, json_dumps (snapshot s ts))) ∧
      (loop_broadcast_tick s ts).2.2.clients
        = s.clients.filter (fun ws => !ws.fails)) := by
  constructor
  · intro h
    simp [loop_broadcast_tick, h]
  · intro h
    unfold loop_broadcast_tick
    rw [if_neg (by simp [List.isEmpty_iff, h])]
    dsimp only
    unfold broadcast
    rw [broadcast_pass_spec]
    dsimp only
    refine ⟨rfl, by simp, ?_⟩
    rw [unregister_fold_clients]
    simp only [List.nil_append]
    exact eraseAll_filter _ s.clients hnd

theorem broadcast_tick_spec_witness :
    wsState.clients.Nodup ∧ wsState.clients ≠ [] ∧
    ((loop_broadcast_tick wsState "t").1 = some (snapshot wsState "t") ∧
     (loop_broadcast_tick wsState "t").2.1
       = (wsState.clients.filter (fun ws => !ws.fails)).map
           (fun ws => (ws.id, json_dumps (snapshot wsState "t"))) ∧
     (loop_broadcast_tick wsState "t").2.2.clients
       = wsState.clients.filter (fun ws => !ws.fails)) :=
  ⟨by decide, by decide,
   (broadcast_tick_spec wsState "t" (by decide)).2 (by decide)⟩

end RobberyDS
